import Mathlib

/-!
Shallow embedding of the viseme keyframe scheduler of the lip-sync repository
(src/Core/Animator/LIPSYNC2D_PoseAssetsAnimator.py,
src/Core/Animator/LIPSYNC_SpriteSheetAnimator.py, and the sequence driver in
src/Operators/LIPSYNC2D_OT_AnalyzeAudio.py).

Conventions of the embedding:
* Python integers are `ℤ`, Python floats (the real-valued `visemes_parts` slot
  duration) are modelled as `ℚ`.
* Python `round` is round-half-to-even (`pyRound`), Python `int()` applied to a
  float truncates toward zero (`pyTrunc`).
* The mutable animator objects become explicit state records threaded through
  the functions; `self.foo = x` becomes a record update.
* A yielded/keyframed viseme or silence insertion becomes a `KeyframeEvent`;
  the backend's per-fcurve fan-out is abstracted to a single channel, so one
  scheduler-level insertion is one event.
-/

/-- Python `round` on an exact rational: round half to even (banker's rounding). -/
def pyRound (q : ℚ) : ℤ :=
  let f := ⌊q⌋
  if q - f < 1/2 then f
  else if 1/2 < q - f then f + 1
  else if Int.emod f 2 = 0 then f else f + 1

/-- Python `int()` on an exact rational: truncation toward zero. -/
def pyTrunc (q : ℚ) : ℤ :=
  if q < 0 then ⌈q⌉ else ⌊q⌋

/-- Python `str.lower()` restricted to ASCII (viseme identifiers are ASCII),
written so it evaluates by kernel reduction. -/
def pyLower (s : String) : String :=
  String.mk (s.data.map (fun c => if c.isUpper then Char.ofNat (c.toNat + 32) else c))

/-- VisemeData dict built per word (src/Core/types is not under src/, but the
animators read exactly these three keys: `visemes`, `visemes_len`,
`visemes_parts`). -/
structure VisemeData where
  visemes : List String
  visemes_len : Nat
  visemes_parts : ℚ
deriving Repr, DecidableEq

/-- WordTiming dict: the two frame fields the animators read. -/
structure WordTiming where
  word_frame_start : ℤ
  word_frame_end : ℤ
deriving Repr, DecidableEq

/-- Modelled from the spec: the viseme mapping table of
Core/phoneme_to_viseme.py (`get_viseme_priority`, `UNSKIPPABLE_VISEMES`) is not
under src/.  Spec §2 treats it as a static table: viseme → integer priority
(lower number = higher priority) and a fixed set of unskippable viseme
identifiers. -/
structure Catalog where
  priority : String → ℤ
  unskippable : List String

/-- Which code path emitted an event: the word-boundary silence insertion
(`insert_silences`) or the per-slot viseme pass (`_insert_on_visemes`). -/
inductive EvKind where
  | silence : EvKind
  | viseme : EvKind
deriving Repr, DecidableEq

/-- One scheduled keyframe insertion (frame, viseme id, emitting pass). -/
structure KeyframeEvent where
  frame : ℤ
  viseme : String
  kind : EvKind
deriving Repr, DecidableEq

namespace PoseAssetsAnimator

/-- The per-viseme configuration the pose-assets animator reads from the
property group: `lip_sync_2d_viseme_pose_{v}` (an optional pose-asset
reference, `none` = unconfigured) and the boolean
`lip_sync_2d_prioritize_accuracy`. -/
structure Props where
  pose_asset : String → Option String
  prioritize_accuracy : Bool

/-- The mutable fields of LIPSYNC2D_PoseAssetsAnimator that the scheduling
logic reads or writes.  `timeline_frame_start` stands for
`LIPSYNC2D_Timeline.get_frame_start()` (modelled from the spec: that module is
not under src/; spec §6 passes it in as `timeline_frame_start`). -/
structure State where
  silence_frame_threshold : ℤ
  in_between_frame_threshold : ℤ
  previous_start : ℤ
  previous_viseme : Option String
  inserted_keyframes : Nat
  word_end_frame : ℤ
  word_start_frame : ℤ
  delay_until_next_word : ℤ
  is_last_word : Bool
  is_first_word : Bool
  close_motion_duration : ℤ
  timeline_frame_start : ℤ
deriving Repr

/-- get_corrected_end_frame (LIPSYNC2D_PoseAssetsAnimator.py:664-681):
`word_start_frame + round(visemes_parts * (visemes_len - 1))`. -/
def get_corrected_end_frame (word_start_frame : ℤ) (visemes_data : VisemeData) : ℤ :=
  word_start_frame + pyRound (visemes_data.visemes_parts * ((visemes_data.visemes_len : ℚ) - 1))

/-- has_already_a_kframe: `viseme_frame_start == self.previous_start`. -/
def has_already_a_kframe (s : State) (viseme_frame_start : ℤ) : Bool :=
  viseme_frame_start == s.previous_start

/-- Python truthiness of `self.previous_viseme`: `None` and `""` are falsy. -/
def prev_viseme_known (s : State) : Bool :=
  match s.previous_viseme with
  | none => false
  | some p => !(p == "")

/-- should_skip_due_to_priority_conflict (lines 381-392): skip when a keyframe
already sits on this exact frame, the previous viseme is known, and the
current viseme's priority number is strictly greater. -/
def should_skip_due_to_priority_conflict (cat : Catalog) (s : State)
    (current_viseme : String) (frame : ℤ) : Bool :=
  if !(has_already_a_kframe s frame) || !(prev_viseme_known s) then false
  else decide (cat.priority current_viseme > cat.priority (s.previous_viseme.getD ""))

/-- is_prev_kframe_too_close (lines 398-402). -/
def is_prev_kframe_too_close (s : State) (viseme_frame_start : ℤ) : Bool :=
  decide (s.previous_start ≥ 0) &&
    decide (viseme_frame_start - s.previous_start ≤ s.in_between_frame_threshold)

/-- is_redundant (lines 404-414): previous viseme known and not "sil", and the
configured pose assets of previous and current viseme are identical. -/
def is_redundant (props : Props) (s : State) (v : String) : Bool :=
  match s.previous_viseme with
  | none => false
  | some p => if p == "sil" then false
              else props.pose_asset p == props.pose_asset v

/-- Membership test `v.lower() in UNSKIPPABLE_VISEMES` used by the timing
resolution. -/
def is_unskippable_viseme (cat : Catalog) (v : String) : Bool :=
  cat.unskippable.contains (pyLower v)

/-- Source name `_should_skip_due_to_timing` (lines 369-379): with
prioritize_accuracy, only skippable visemes are dropped; without it every
too-close viseme is dropped. -/
def should_skip_due_to_timing (cat : Catalog) (props : Props) (v : String) : Bool :=
  if props.prioritize_accuracy then !(is_unskippable_viseme cat v) else true

/-- should_skip_keyframe (lines 354-367): priority conflict, then redundancy,
then (when too close) the timing resolution. -/
def should_skip_keyframe (cat : Catalog) (props : Props) (s : State)
    (v : String) (viseme_frame_start : ℤ) : Bool :=
  if should_skip_due_to_priority_conflict cat s v viseme_frame_start then true
  else if is_redundant props s v then true
  else if is_prev_kframe_too_close s viseme_frame_start then
    should_skip_due_to_timing cat props v
  else false

/-- Loop body of `_insert_on_visemes` (lines 326-352): walk the enumerated
viseme list; a viseme with no configured pose asset is skipped silently; a
viseme rejected by should_skip_keyframe is skipped; otherwise the event is
yielded and previous_start / previous_viseme are updated.  The caller inserts
the keyframe points of each yielded event (insert_keyframes lines 152-159),
counted here as one insertion per event. -/
def visemes_loop (cat : Catalog) (props : Props) (wt : WordTiming) (parts : ℚ) :
    State → Nat → List String → State × List KeyframeEvent
  | s, _, [] => (s, [])
  | s, i, v :: rest =>
    let viseme_frame_start := wt.word_frame_start + pyRound ((i : ℚ) * parts)
    if (props.pose_asset v).isNone then
      visemes_loop cat props wt parts s (i + 1) rest
    else if should_skip_keyframe cat props s v viseme_frame_start then
      visemes_loop cat props wt parts s (i + 1) rest
    else
      let s' := { s with previous_start := viseme_frame_start,
                         previous_viseme := some v,
                         inserted_keyframes := s.inserted_keyframes + 1 }
      let res := visemes_loop cat props wt parts s' (i + 1) rest
      (res.1, ⟨viseme_frame_start, v, EvKind.viseme⟩ :: res.2)

/-- _insert_on_visemes over a word's whole viseme list. -/
def insert_on_visemes (cat : Catalog) (props : Props) (s : State)
    (visemes_data : VisemeData) (wt : WordTiming) : State × List KeyframeEvent :=
  visemes_loop cat props wt visemes_data.visemes_parts s 0 visemes_data.visemes

/-- End-of-word silence frames (insert_silences lines 245-281): for a non-last
word a smooth partial close then a return to rest; for the last word a single
close at `corrected + close_motion_duration`. -/
def end_silence_events (s : State) (visemes_data : VisemeData) : List KeyframeEvent :=
  let corrected := get_corrected_end_frame s.word_start_frame visemes_data
  if !s.is_last_word then
    [⟨corrected + max 1 (min (s.delay_until_next_word - s.in_between_frame_threshold)
        s.close_motion_duration), "sil", EvKind.silence⟩,
     ⟨corrected + s.delay_until_next_word - max 1 s.in_between_frame_threshold,
        "sil", EvKind.silence⟩]
  else
    [⟨corrected + s.close_motion_duration, "sil", EvKind.silence⟩]

/-- Start-of-utterance silence frame (insert_silences lines 283-289):
`int(max(timeline_frame_start, word_start_frame - max(1, close_motion_duration / 2)))`
with Python float division and truncation. -/
def start_silence_events (s : State) : List KeyframeEvent :=
  [⟨pyTrunc (max (s.timeline_frame_start : ℚ)
      ((s.word_start_frame : ℚ) - max 1 ((s.close_motion_duration : ℚ) / 2))),
    "sil", EvKind.silence⟩]

/-- insert_silences (lines 225-289): nothing happens when no "sil" pose asset
is configured; otherwise the end-of-word events (when the delay exceeds the
silence threshold or this is the last word) followed by the first-word event.
Only `inserted_keyframes` is updated, never previous_start / previous_viseme. -/
def insert_silences (props : Props) (s : State) (visemes_data : VisemeData) :
    State × List KeyframeEvent :=
  match props.pose_asset "sil" with
  | none => (s, [])
  | some _ =>
    let evs :=
      (if (s.delay_until_next_word > s.silence_frame_threshold) || s.is_last_word
       then end_silence_events s visemes_data else [])
      ++ (if s.is_first_word then start_silence_events s else [])
    ({ s with inserted_keyframes := s.inserted_keyframes + evs.length }, evs)

/-- insert_keyframes (lines 116-159): store the word context, run
insert_silences, then the viseme pass; the word's emitted stream is the
silence events followed by the viseme events. -/
def insert_keyframes (cat : Catalog) (props : Props) (s : State)
    (visemes_data : VisemeData) (wt : WordTiming) (delay_until_next_word : ℤ)
    (is_last_word : Bool) (word_index : Nat) : State × List KeyframeEvent :=
  let s0 := { s with word_end_frame := wt.word_frame_end,
                     word_start_frame := wt.word_frame_start,
                     delay_until_next_word := max 0 delay_until_next_word,
                     is_last_word := is_last_word,
                     is_first_word := word_index == 0 }
  let sil := insert_silences props s0 visemes_data
  let vis := insert_on_visemes cat props sil.1 visemes_data wt
  (vis.1, sil.2 ++ vis.2)

/-- setup_properties (lines 437-468): thresholds from the time conversion,
previous_start = -1, previous_viseme = None, counter reset.  No validation of
any threshold or frame rate is performed and no error can be raised here. -/
def setup_state (timeline_frame_start silence_frame_threshold
    in_between_frame_threshold close_motion_duration : ℤ) : State :=
  { silence_frame_threshold := silence_frame_threshold
    in_between_frame_threshold := in_between_frame_threshold
    previous_start := -1
    previous_viseme := none
    inserted_keyframes := 0
    word_end_frame := -1
    word_start_frame := -1
    delay_until_next_word := -1
    is_last_word := false
    is_first_word := false
    close_motion_duration := close_motion_duration
    timeline_frame_start := timeline_frame_start }

/-- Sequence driver loop (LIPSYNC2D_OT_AnalyzeAudio.auto_insert_keyframes,
lines 116-168): words in order, `is_last_word = index == total - 1`,
`delay_until_next_word = next word_frame_start - this word's corrected end`.
For the last word the delay comes from `get_next_word_timing`
(LIPSYNC2D_DialogInspector, not under src/); modelled from the spec, which
fixes it to 0 for the last word (§4.5). -/
def driver_loop (cat : Catalog) (props : Props) (total : Nat) :
    State → Nat → List (WordTiming × VisemeData) → State × List KeyframeEvent
  | s, _, [] => (s, [])
  | s, index, (wt, vd) :: rest =>
    let is_last_word := index == total - 1
    let corrected := get_corrected_end_frame wt.word_frame_start vd
    let delay := match rest with
      | [] => 0
      | (wt2, _) :: _ => wt2.word_frame_start - corrected
    let step := insert_keyframes cat props s vd wt delay is_last_word index
    let res := driver_loop cat props total step.1 (index + 1) rest
    (res.1, step.2 ++ res.2)

/-- One full run: setup then the driver over every word, aggregating the
emitted event stream in emission order. -/
def run (cat : Catalog) (props : Props)
    (timeline_frame_start silence_frame_threshold in_between_frame_threshold
      close_motion_duration : ℤ)
    (words : List (WordTiming × VisemeData)) : State × List KeyframeEvent :=
  driver_loop cat props words.length
    (setup_state timeline_frame_start silence_frame_threshold
      in_between_frame_threshold close_motion_duration)
    0 words

end PoseAssetsAnimator

namespace SpriteSheetAnimator

/-- The sprite-sheet animator's property access: `props["lip_sync_2d_viseme_{v}"]`
is an integer sprite index per viseme (the silence value is
`viseme_value "sil"`). -/
structure Props where
  viseme_value : String → ℤ

/-- Mutable fields of LIPSYNC_SpriteSheetAnimator read or written by the
scheduling logic.  As in the pose-assets backend, `timeline_frame_start`
stands for `LIPSYNC2D_Timeline.get_frame_start()` (module not under src/). -/
structure State where
  silence_frame_threshold : ℤ
  in_between_frame_threshold : ℤ
  previous_start : ℤ
  previous_viseme : Option String
  inserted_keyframes : Nat
  word_end_frame : ℤ
  word_start_frame : ℤ
  delay_until_next_word : ℤ
  is_last_word : Bool
  is_first_word : Bool
  timeline_frame_start : ℤ
deriving Repr

/-- has_already_a_kframe (LIPSYNC_SpriteSheetAnimator.py:184-185). -/
def has_already_a_kframe (s : State) (viseme_frame_start : ℤ) : Bool :=
  viseme_frame_start == s.previous_start

/-- is_prev_kframe_too_close (lines 187-189). -/
def is_prev_kframe_too_close (s : State) (viseme_frame_start : ℤ) : Bool :=
  decide (s.previous_start ≥ 0) &&
    decide (viseme_frame_start - s.previous_start ≤ s.in_between_frame_threshold)

/-- is_redundant (lines 191-193).  The source body is only the guard
`if self.previous_viseme is None or self.previous_viseme == "sil": return False`;
there is no return statement on the remaining path, so Python yields `None`
(falsy) on every path: the check never evaluates to true. -/
def is_redundant (s : State) (v : String) : Bool :=
  if s.previous_viseme = none ∨ s.previous_viseme = some "sil" then false
  else false

/-- The skip condition of `_insert_on_visemes` (lines 163-171), an `or` chain
evaluated as: already a keyframe on this frame, previous keyframe too close,
redundant with previous viseme. -/
def should_skip (s : State) (v : String) (viseme_frame_start : ℤ) : Bool :=
  has_already_a_kframe s viseme_frame_start
    || is_prev_kframe_too_close s viseme_frame_start
    || is_redundant s v

/-- Loop body of `_insert_on_visemes` (lines 157-182); the caller
(insert_keyframes lines 96-102) inserts one keyframe per yielded item on the
single sprite-index fcurve. -/
def visemes_loop (props : Props) (wt : WordTiming) (parts : ℚ) :
    State → Nat → List String → State × List KeyframeEvent
  | s, _, [] => (s, [])
  | s, i, v :: rest =>
    let viseme_frame_start := wt.word_frame_start + pyRound ((i : ℚ) * parts)
    if should_skip s v viseme_frame_start then
      visemes_loop props wt parts s (i + 1) rest
    else
      let s' := { s with previous_start := viseme_frame_start,
                         previous_viseme := some v,
                         inserted_keyframes := s.inserted_keyframes + 1 }
      let res := visemes_loop props wt parts s' (i + 1) rest
      (res.1, ⟨viseme_frame_start, v, EvKind.viseme⟩ :: res.2)

/-- _insert_on_visemes over a word's whole viseme list. -/
def insert_on_visemes (props : Props) (s : State) (visemes_data : VisemeData)
    (wt : WordTiming) : State × List KeyframeEvent :=
  visemes_loop props wt visemes_data.visemes_parts s 0 visemes_data.visemes

/-- End-of-word silences (insert_silences lines 107-128, single fcurve): one
insertion at `corrected + in_between_frame_threshold`, and — when this is the
last word — a second insertion at the very same frame. -/
def end_silence_events (s : State) (visemes_data : VisemeData) : List KeyframeEvent :=
  let corrected := PoseAssetsAnimator.get_corrected_end_frame s.word_start_frame visemes_data
  let e : KeyframeEvent := ⟨corrected + s.in_between_frame_threshold, "sil", EvKind.silence⟩
  if s.is_last_word then [e, e] else [e]

/-- First-word silence (insert_silences lines 130-136):
`max(timeline_frame_start, word_start_frame - max(1, in_between_frame_threshold))`.
This insertion does not touch the inserted_keyframes counter in the source. -/
def start_silence_events (s : State) : List KeyframeEvent :=
  [⟨max s.timeline_frame_start (s.word_start_frame - max 1 s.in_between_frame_threshold),
    "sil", EvKind.silence⟩]

/-- insert_silences (lines 104-136).  Only inserted_keyframes is updated (and
only for the end-of-word insertions), never previous_start / previous_viseme
(the source has a TODO noting exactly this). -/
def insert_silences (props : Props) (s : State) (visemes_data : VisemeData) :
    State × List KeyframeEvent :=
  let endEvs :=
    if (s.delay_until_next_word > s.silence_frame_threshold) || s.is_last_word
    then end_silence_events s visemes_data else []
  let startEvs := if s.is_first_word then start_silence_events s else []
  ({ s with inserted_keyframes := s.inserted_keyframes + endEvs.length },
    endEvs ++ startEvs)

/-- insert_keyframes (lines 66-102): store the word context, run
insert_silences, then the viseme pass. -/
def insert_keyframes (props : Props) (s : State) (visemes_data : VisemeData)
    (wt : WordTiming) (delay_until_next_word : ℤ) (is_last_word : Bool)
    (word_index : Nat) : State × List KeyframeEvent :=
  let s0 := { s with word_end_frame := wt.word_frame_end,
                     word_start_frame := wt.word_frame_start,
                     delay_until_next_word := max 0 delay_until_next_word,
                     is_last_word := is_last_word,
                     is_first_word := word_index == 0 }
  let sil := insert_silences props s0 visemes_data
  let vis := insert_on_visemes props sil.1 visemes_data wt
  (vis.1, sil.2 ++ vis.2)

end SpriteSheetAnimator

/-- Short-circuit evaluation of the three skip checks in the order claimed by
the spec (§4.3 step 6): priority conflict, then redundancy, then the
minimum-spacing check whose resolution is `timing_skip`. -/
def ordered_checks (conflict redundant too_close timing_skip : Bool) : Bool :=
  if conflict then true
  else if redundant then true
  else if too_close then timing_skip
  else false

/-- Every silence event of the stream sits at a later position than every
viseme event (the order the spec claims for a word's emissions). -/
def silences_after_visemes (l : List KeyframeEvent) : Prop :=
  ∀ i j : Fin l.length,
    (l.get i).kind = EvKind.silence → (l.get j).kind = EvKind.viseme → (j : ℕ) < (i : ℕ)

/-- Every silence event of the stream sits at an earlier position than every
viseme event (the order the code actually produces for a word). -/
def silences_before_visemes (l : List KeyframeEvent) : Prop :=
  ∀ i j : Fin l.length,
    (l.get i).kind = EvKind.silence → (l.get j).kind = EvKind.viseme → (i : ℕ) < (j : ℕ)

/-- Catalog with two visemes of priorities 1 ("x1") and 3 (everything else),
no unskippable visemes. -/
def catTwoPriorities : Catalog :=
  ⟨fun v => if v == "x1" then 1 else 3, []⟩

/-- Pose-assets configuration with distinct assets for "x3" and "x1", nothing
else (in particular no "sil" asset), accuracy off. -/
def propsTwoVisemes : PoseAssetsAnimator.Props :=
  ⟨fun v => if v == "x3" then some "A3" else if v == "x1" then some "A1" else none, false⟩

/-- Catalog whose unskippable set is exactly ("b"). -/
def catUnskippableB : Catalog :=
  ⟨fun _ => 0, ["b"]⟩

/-- Pose-assets configuration where every viseme is mapped to the same asset
and accuracy is on. -/
def propsAllSameAccuracy : PoseAssetsAnimator.Props :=
  ⟨fun _ => some "A", true⟩

/-- Pose-assets configuration where every viseme is mapped to the same asset
and accuracy is off. -/
def propsAllSameNoAccuracy : PoseAssetsAnimator.Props :=
  ⟨fun _ => some "A", false⟩

/-- Pose scheduler state: previous keyframe at frame 5 for viseme "b",
in-between threshold 2. -/
def statePrevB : PoseAssetsAnimator.State :=
  { PoseAssetsAnimator.setup_state 0 0 2 0 with
      previous_start := 5, previous_viseme := some "b" }

/-- Pose scheduler state: previous keyframe at frame 5 for viseme "x1". -/
def statePrevX1 : PoseAssetsAnimator.State :=
  { PoseAssetsAnimator.setup_state 0 0 2 0 with
      previous_start := 5, previous_viseme := some "x1" }

/-- Pose scheduler state: previous keyframe at frame 5 for viseme "aa". -/
def statePrevAA : PoseAssetsAnimator.State :=
  { PoseAssetsAnimator.setup_state 0 0 2 0 with
      previous_start := 5, previous_viseme := some "aa" }

/-- Sprite scheduler state: fresh except a previous keyframe at frame 5 for
viseme "aa", in-between threshold 1. -/
def spriteStatePrevAA : SpriteSheetAnimator.State :=
  { silence_frame_threshold := 0, in_between_frame_threshold := 1, previous_start := 5,
    previous_viseme := some "aa", inserted_keyframes := 0, word_end_frame := -1,
    word_start_frame := -1, delay_until_next_word := -1, is_last_word := false,
    is_first_word := false, timeline_frame_start := 0 }

/-- Pose state as insert_keyframes would leave it for a non-first last word
starting at frame 100 (close_motion_duration 6). -/
def poseStateLastWord : PoseAssetsAnimator.State :=
  { PoseAssetsAnimator.setup_state 0 0 0 6 with
      word_start_frame := 100, is_last_word := true, delay_until_next_word := 0 }

/-- Sprite state as insert_keyframes would leave it for a non-first last word
starting at frame 100 (in-between threshold 1). -/
def spriteStateLastWord : SpriteSheetAnimator.State :=
  { spriteStatePrevAA with
      previous_start := -1, previous_viseme := none, word_start_frame := 100,
      is_last_word := true, delay_until_next_word := 0 }

/-- Sprite state as insert_keyframes would leave it for a first, non-last word
starting at frame 10 with zero delay (in-between threshold 1). -/
def spriteStateFirstWord : SpriteSheetAnimator.State :=
  { spriteStateLastWord with
      word_start_frame := 10, is_last_word := false, is_first_word := true }

/-- Pose state as insert_keyframes would leave it for a first, non-last word
starting at frame 10 with zero delay (close_motion_duration 6). -/
def poseStateFirstWord : PoseAssetsAnimator.State :=
  { PoseAssetsAnimator.setup_state 0 0 0 6 with
      word_start_frame := 10, is_first_word := true, delay_until_next_word := 0 }

/-- Sprite configuration mapping every viseme to sprite index 2. -/
def spritePropsConst : SpriteSheetAnimator.Props :=
  ⟨fun _ => 2⟩

/-- VisemeData of a one-viseme word ("aa", parts 0). -/
def vdSingleAA : VisemeData :=
  ⟨["aa"], 1, 0⟩

/-- Pose-assets configuration with an asset for "aa" and for "sil" only,
accuracy off. -/
def propsAASil : PoseAssetsAnimator.Props :=
  ⟨fun v => if v == "aa" then some "A" else if v == "sil" then some "S" else none, false⟩

/-- Pose-assets configuration with an asset for "aa" only (no "sil"),
accuracy off. -/
def propsAAOnly : PoseAssetsAnimator.Props :=
  ⟨fun v => if v == "aa" then some "A" else none, false⟩

/-- Catalog with constant priority 0 and no unskippable visemes. -/
def catFlat : Catalog :=
  ⟨fun _ => 0, []⟩

theorem pyRound_zero : pyRound 0 = 0 := by
  norm_num [pyRound]

theorem pose_insert_silences_kinds (props : PoseAssetsAnimator.Props)
    (s : PoseAssetsAnimator.State) (vd : VisemeData) :
    ∀ e ∈ (PoseAssetsAnimator.insert_silences props s vd).2, e.kind = EvKind.silence := by
  intro e he
  unfold PoseAssetsAnimator.insert_silences at he
  cases h : props.pose_asset "sil" with
  | none => rw [h] at he; simp at he
  | some a =>
    rw [h] at he
    simp only [List.mem_append] at he
    rcases he with he | he
    · split at he
      · unfold PoseAssetsAnimator.end_silence_events at he
        split at he <;> simp at he <;> rcases he with rfl | rfl <;> rfl
      · simp at he
    · split at he
      · unfold PoseAssetsAnimator.start_silence_events at he
        simp at he
        subst he
        rfl
      · simp at he

theorem sprite_insert_silences_kinds (props : SpriteSheetAnimator.Props)
    (s : SpriteSheetAnimator.State) (vd : VisemeData) :
    ∀ e ∈ (SpriteSheetAnimator.insert_silences props s vd).2, e.kind = EvKind.silence := by
  intro e he
  unfold SpriteSheetAnimator.insert_silences at he
  simp only [List.mem_append] at he
  rcases he with he | he
  · split at he
    · unfold SpriteSheetAnimator.end_silence_events at he
      split at he <;> simp at he
      · rcases he with rfl | rfl <;> rfl
      · subst he; rfl
    · simp at he
  · split at he
    · unfold SpriteSheetAnimator.start_silence_events at he
      simp at he
      subst he
      rfl
    · simp at he

theorem pose_visemes_loop_kinds (cat : Catalog) (props : PoseAssetsAnimator.Props)
    (wt : WordTiming) (parts : ℚ) :
    ∀ (l : List String) (s : PoseAssetsAnimator.State) (i : Nat),
      ∀ e ∈ (PoseAssetsAnimator.visemes_loop cat props wt parts s i l).2,
        e.kind = EvKind.viseme := by
  intro l
  induction l with
  | nil => intro s i e he; simp [PoseAssetsAnimator.visemes_loop] at he
  | cons v rest ih =>
    intro s i e he
    simp only [PoseAssetsAnimator.visemes_loop] at he
    split at he
    · exact ih _ _ e he
    · split at he
      · exact ih _ _ e he
      · rcases List.mem_cons.mp he with rfl | he'
        · rfl
        · exact ih _ _ e he'

theorem sprite_visemes_loop_kinds (props : SpriteSheetAnimator.Props)
    (wt : WordTiming) (parts : ℚ) :
    ∀ (l : List String) (s : SpriteSheetAnimator.State) (i : Nat),
      ∀ e ∈ (SpriteSheetAnimator.visemes_loop props wt parts s i l).2,
        e.kind = EvKind.viseme := by
  intro l
  induction l with
  | nil => intro s i e he; simp [SpriteSheetAnimator.visemes_loop] at he
  | cons v rest ih =>
    intro s i e he
    simp only [SpriteSheetAnimator.visemes_loop] at he
    split at he
    · exact ih _ _ e he
    · rcases List.mem_cons.mp he with rfl | he'
      · rfl
      · exact ih _ _ e he'

theorem append_silences_before_visemes (a b : List KeyframeEvent)
    (ha : ∀ e ∈ a, e.kind = EvKind.silence) (hb : ∀ e ∈ b, e.kind = EvKind.viseme) :
    silences_before_visemes (a ++ b) := by
  intro i j hi hj
  have hilen : (i : ℕ) < a.length + b.length := by
    have h := i.isLt
    simpa [List.length_append] using h
  have hia : (i : ℕ) < a.length := by
    by_contra hcon
    push_neg at hcon
    have hsub : (i : ℕ) - a.length < b.length := by omega
    rw [List.get_eq_getElem, List.getElem_append_right hcon] at hi
    have hv := hb _ (List.getElem_mem hsub)
    rw [hi] at hv
    exact EvKind.noConfusion hv
  have hja : a.length ≤ (j : ℕ) := by
    by_contra hcon
    push_neg at hcon
    rw [List.get_eq_getElem, List.getElem_append_left hcon] at hj
    have hs := ha _ (List.getElem_mem hcon)
    rw [hj] at hs
    exact EvKind.noConfusion hs
  omega

/-- Claim C1 (amended part): whenever the slot frame equals the previous
keyframe frame and a previous viseme is known, the pose-assets backend's
priority-conflict check skips the current viseme exactly when its priority
number is strictly greater than the previous viseme's (ties and better
priorities proceed to the later checks). -/
theorem C1_priority_conflict_check (cat : Catalog) (s : PoseAssetsAnimator.State)
    (v p : String) (frame : ℤ) (hp : s.previous_viseme = some p) (hne : p ≠ "")
    (hf : frame = s.previous_start) :
    PoseAssetsAnimator.should_skip_due_to_priority_conflict cat s v frame = true ↔
      cat.priority p < cat.priority v := by
  unfold PoseAssetsAnimator.should_skip_due_to_priority_conflict
  simp [PoseAssetsAnimator.has_already_a_kframe, PoseAssetsAnimator.prev_viseme_known,
    hp, hf, hne]

/-- Witness for C1_priority_conflict_check: previous viseme "x1" (priority 1)
at frame 5, current viseme "x3" (priority 3) landing on frame 5 is skipped. -/
theorem C1_priority_conflict_check_witness :
    PoseAssetsAnimator.should_skip_due_to_priority_conflict catTwoPriorities statePrevX1 "x3" 5
      = true :=
  (C1_priority_conflict_check catTwoPriorities statePrevX1 "x3" "x1" 5 rfl
    (by decide) rfl).mpr (by decide)

/-- Claim C1 (counterexample to the tie-break conclusion): a word whose two
visemes "x3" (priority 3) and "x1" (priority 1) both land on slot frame 0.
The priority-3 viseme arrives first and is emitted; when the priority-1 viseme
arrives it passes the priority check but is suppressed by the minimum-spacing
check (distance 0), so the emitted event carries the priority-3 viseme, not
the priority-1 one. -/
theorem C1_same_frame_first_wins_counterexample :
    (PoseAssetsAnimator.insert_keyframes catTwoPriorities propsTwoVisemes
        (PoseAssetsAnimator.setup_state 0 0 0 0) ⟨["x3", "x1"], 2, 0⟩ ⟨0, 0⟩ 0 false 1).2
      = [⟨0, "x3", EvKind.viseme⟩] ∧
    catTwoPriorities.priority "x3" = 3 ∧ catTwoPriorities.priority "x1" = 1 ∧
    pyRound ((0 : ℚ) * 0) = pyRound ((1 : ℚ) * 0) := by
  refine ⟨?_, by decide, by decide, by norm_num [pyRound]⟩
  norm_num +decide [PoseAssetsAnimator.insert_keyframes, PoseAssetsAnimator.setup_state,
    PoseAssetsAnimator.insert_silences, PoseAssetsAnimator.insert_on_visemes,
    PoseAssetsAnimator.visemes_loop, PoseAssetsAnimator.should_skip_keyframe,
    PoseAssetsAnimator.should_skip_due_to_priority_conflict,
    PoseAssetsAnimator.has_already_a_kframe, PoseAssetsAnimator.prev_viseme_known,
    PoseAssetsAnimator.is_redundant, PoseAssetsAnimator.is_prev_kframe_too_close,
    PoseAssetsAnimator.should_skip_due_to_timing, PoseAssetsAnimator.is_unskippable_viseme,
    catTwoPriorities, propsTwoVisemes, pyRound, pyLower]

/-- Claim C2: in each backend the skip decision equals the short-circuit
evaluation of that backend's three checks in the order priority-conflict,
redundancy, minimum-spacing.  In the pose-assets backend the spacing
resolution is the timing check; in the sprite-sheet backend the conflict
check is the bare same-frame test, its redundancy check is a no-op, and a
too-close slot is always skipped. -/
theorem C2_check_evaluation_order :
    (∀ (cat : Catalog) (props : PoseAssetsAnimator.Props) (s : PoseAssetsAnimator.State)
        (v : String) (f : ℤ),
      PoseAssetsAnimator.should_skip_keyframe cat props s v f =
        ordered_checks (PoseAssetsAnimator.should_skip_due_to_priority_conflict cat s v f)
          (PoseAssetsAnimator.is_redundant props s v)
          (PoseAssetsAnimator.is_prev_kframe_too_close s f)
          (PoseAssetsAnimator.should_skip_due_to_timing cat props v)) ∧
    (∀ (s : SpriteSheetAnimator.State) (v : String) (f : ℤ),
      SpriteSheetAnimator.should_skip s v f =
        ordered_checks (SpriteSheetAnimator.has_already_a_kframe s f)
          (SpriteSheetAnimator.is_redundant s v)
          (SpriteSheetAnimator.is_prev_kframe_too_close s f)
          true) := by
  constructor
  · intro cat props s v f
    rfl
  · intro s v f
    simp only [SpriteSheetAnimator.should_skip, SpriteSheetAnimator.is_redundant,
      ordered_checks, ite_self]
    cases SpriteSheetAnimator.has_already_a_kframe s f <;>
      cases SpriteSheetAnimator.is_prev_kframe_too_close s f <;> simp

/-- Claim C3 (amended): for a too-close slot the pose-assets scheduler always
skips when prioritize_accuracy is off; with it on, a skippable viseme is
always skipped, and — provided neither the priority-conflict nor the
redundancy check fired first — the slot is skipped exactly when the viseme is
not unskippable.  (The unqualified "iff" of the claim fails: an earlier check
can skip an unskippable too-close viseme, see the counterexample.) -/
theorem C3_timing_resolution (cat : Catalog) (props : PoseAssetsAnimator.Props)
    (s : PoseAssetsAnimator.State) (v : String) (frame : ℤ)
    (hclose : PoseAssetsAnimator.is_prev_kframe_too_close s frame = true) :
    (props.prioritize_accuracy = false →
      PoseAssetsAnimator.should_skip_keyframe cat props s v frame = true) ∧
    (props.prioritize_accuracy = true →
      PoseAssetsAnimator.is_unskippable_viseme cat v = false →
      PoseAssetsAnimator.should_skip_keyframe cat props s v frame = true) ∧
    (props.prioritize_accuracy = true →
      PoseAssetsAnimator.should_skip_due_to_priority_conflict cat s v frame = false →
      PoseAssetsAnimator.is_redundant props s v = false →
      (PoseAssetsAnimator.should_skip_keyframe cat props s v frame = true ↔
        PoseAssetsAnimator.is_unskippable_viseme cat v = false)) := by
  have hform : PoseAssetsAnimator.should_skip_keyframe cat props s v frame =
      (PoseAssetsAnimator.should_skip_due_to_priority_conflict cat s v frame ||
       PoseAssetsAnimator.is_redundant props s v ||
       PoseAssetsAnimator.should_skip_due_to_timing cat props v) := by
    unfold PoseAssetsAnimator.should_skip_keyframe
    rw [hclose]
    cases PoseAssetsAnimator.should_skip_due_to_priority_conflict cat s v frame <;>
      cases PoseAssetsAnimator.is_redundant props s v <;> simp
  refine ⟨?_, ?_, ?_⟩
  · intro hacc
    rw [hform]
    unfold PoseAssetsAnimator.should_skip_due_to_timing
    rw [hacc]
    simp
  · intro hacc hun
    rw [hform]
    unfold PoseAssetsAnimator.should_skip_due_to_timing
    rw [hacc, hun]
    simp
  · intro hacc hconf hred
    rw [hform, hconf, hred]
    unfold PoseAssetsAnimator.should_skip_due_to_timing
    rw [hacc]
    cases PoseAssetsAnimator.is_unskippable_viseme cat v <;> simp

/-- Witness for C3_timing_resolution: previous keyframe at frame 5, slot at
frame 6, threshold 2 (too close), accuracy off: slot skipped. -/
theorem C3_timing_resolution_witness :
    PoseAssetsAnimator.is_prev_kframe_too_close statePrevAA 6 = true ∧
    PoseAssetsAnimator.should_skip_keyframe catFlat propsAllSameNoAccuracy statePrevAA "bb" 6
      = true :=
  ⟨by decide,
    (C3_timing_resolution catFlat propsAllSameNoAccuracy statePrevAA "bb" 6 (by decide)).1 rfl⟩

/-- Claim C3 (counterexample): a too-close slot at frame 6 whose viseme "b" is
unskippable with prioritize_accuracy on is nevertheless skipped, because it is
redundant with the previous viseme (same configured asset).  The claim's "if
and only if the current viseme is not in the fixed unskippable set" is
therefore false. -/
theorem C3_unskippable_still_skipped_counterexample :
    PoseAssetsAnimator.is_prev_kframe_too_close statePrevB 6 = true ∧
    propsAllSameAccuracy.prioritize_accuracy = true ∧
    PoseAssetsAnimator.is_unskippable_viseme catUnskippableB "b" = true ∧
    PoseAssetsAnimator.should_skip_keyframe catUnskippableB propsAllSameAccuracy statePrevB "b" 6
      = true := by
  exact ⟨by decide, rfl, by decide, by decide⟩

/-- Claim C4: the pose-assets redundancy check skips exactly when the previous
viseme is known, is not "sil", and maps to the same configured asset as the
current viseme — here the state with previous viseme "aa" and every viseme on
the same asset is skipped.  The sprite-sheet backend's is_redundant, however,
returns false on every input (its body has no return statement after the
guard), so the very same redundant situation is not skipped there. -/
theorem C4_redundancy_check :
    PoseAssetsAnimator.is_redundant propsAllSameAccuracy statePrevAA "oo" = true ∧
    statePrevAA.previous_viseme = some "aa" ∧
    propsAllSameAccuracy.pose_asset "aa" = propsAllSameAccuracy.pose_asset "oo" ∧
    spriteStatePrevAA.previous_viseme = some "aa" ∧
    spritePropsConst.viseme_value "aa" = spritePropsConst.viseme_value "aa" ∧
    (∀ (s : SpriteSheetAnimator.State) (v : String),
      SpriteSheetAnimator.is_redundant s v = false) := by
  refine ⟨by decide, rfl, rfl, rfl, rfl, ?_⟩
  intro s v
  simp [SpriteSheetAnimator.is_redundant]

/-- Claim C5: `corrected_end_frame(w, data) = w + round(visemes_parts *
(visemes_len - 1))`; for one viseme it is the word start itself, and for
`visemes_parts = span / n` it equals `w + round(span * (n - 1) / n)`. -/
theorem C5_corrected_end_frame (w : ℤ) (vd : VisemeData) (span : ℤ) (n : ℕ)
    (hn : vd.visemes_len = n) (hn1 : 1 ≤ n)
    (hp : vd.visemes_parts = (span : ℚ) / (n : ℚ)) :
    PoseAssetsAnimator.get_corrected_end_frame w vd
      = w + pyRound (vd.visemes_parts * ((vd.visemes_len : ℚ) - 1)) ∧
    (n = 1 → PoseAssetsAnimator.get_corrected_end_frame w vd = w) ∧
    PoseAssetsAnimator.get_corrected_end_frame w vd
      = w + pyRound ((span : ℚ) * ((n : ℚ) - 1) / (n : ℚ)) := by
  refine ⟨rfl, ?_, ?_⟩
  · intro h1
    unfold PoseAssetsAnimator.get_corrected_end_frame
    rw [hn, h1]
    norm_num [pyRound_zero]
  · unfold PoseAssetsAnimator.get_corrected_end_frame
    rw [hn, hp, div_mul_eq_mul_div]

/-- Witness for C5_corrected_end_frame: the spec's FPS-24 "hi" scenario —
span 24, two visemes, parts 12 — whose last slot lands at frame 12. -/
theorem C5_corrected_end_frame_witness :
    PoseAssetsAnimator.get_corrected_end_frame 0 ⟨["P", "A"], 2, 12⟩
      = 0 + pyRound ((24 : ℚ) * ((2 : ℚ) - 1) / (2 : ℚ)) ∧
    pyRound ((24 : ℚ) * ((2 : ℚ) - 1) / (2 : ℚ)) = 12 :=
  ⟨(C5_corrected_end_frame 0 ⟨["P", "A"], 2, 12⟩ 24 2 rfl (by decide) (by norm_num)).2.2,
    by norm_num [pyRound]⟩

/-- Claim C6: for a (non-first) last word with corrected end frame 100 and
close_motion_duration 6, the pose-assets backend emits exactly one end-of-word
silence event, at frame 106, as claimed.  The sprite-sheet backend, however,
inserts the last-word silence twice, both times at
`corrected_end_frame + in_between_frame_threshold` (here 101): it has no
close_motion_duration and the second insertion duplicates the first. -/
theorem C6_last_word_silence :
    PoseAssetsAnimator.get_corrected_end_frame 100 vdSingleAA = 100 ∧
    (PoseAssetsAnimator.insert_silences propsAASil poseStateLastWord vdSingleAA).2
      = [⟨106, "sil", EvKind.silence⟩] ∧
    (SpriteSheetAnimator.insert_silences spritePropsConst spriteStateLastWord vdSingleAA).2
      = [⟨101, "sil", EvKind.silence⟩, ⟨101, "sil", EvKind.silence⟩] := by
  refine ⟨?_, ?_, ?_⟩
  · norm_num [PoseAssetsAnimator.get_corrected_end_frame, vdSingleAA, pyRound_zero]
  · norm_num +decide [PoseAssetsAnimator.insert_silences,
      PoseAssetsAnimator.end_silence_events, PoseAssetsAnimator.start_silence_events,
      PoseAssetsAnimator.get_corrected_end_frame, PoseAssetsAnimator.setup_state,
      poseStateLastWord, propsAASil, vdSingleAA, pyRound_zero]
  · norm_num +decide [SpriteSheetAnimator.insert_silences,
      SpriteSheetAnimator.end_silence_events, SpriteSheetAnimator.start_silence_events,
      PoseAssetsAnimator.get_corrected_end_frame, spriteStateLastWord, spriteStatePrevAA,
      spritePropsConst, vdSingleAA, pyRound_zero]

/-- Claim C7 (amended): for the first word each backend emits its
start-of-utterance silence event as the last event of the silence pass, but at
different frames: the pose-assets backend at
`int(max(timeline_frame_start, word_start_frame - max(1, close_motion_duration / 2)))`
(as the claim says), the sprite-sheet backend at
`max(timeline_frame_start, word_start_frame - max(1, in_between_frame_threshold))`
(no close_motion_duration is involved). -/
theorem C7_first_word_silence (props : PoseAssetsAnimator.Props)
    (sprops : SpriteSheetAnimator.Props) (sp : PoseAssetsAnimator.State)
    (ss : SpriteSheetAnimator.State) (vdp vds : VisemeData)
    (hfp : sp.is_first_word = true)
    (hsil : (props.pose_asset "sil").isSome = true)
    (hfs : ss.is_first_word = true) :
    (PoseAssetsAnimator.insert_silences props sp vdp).2.getLast?
      = some ⟨pyTrunc (max (sp.timeline_frame_start : ℚ)
          ((sp.word_start_frame : ℚ) - max 1 ((sp.close_motion_duration : ℚ) / 2))),
        "sil", EvKind.silence⟩ ∧
    (SpriteSheetAnimator.insert_silences sprops ss vds).2.getLast?
      = some ⟨max ss.timeline_frame_start
          (ss.word_start_frame - max 1 ss.in_between_frame_threshold),
        "sil", EvKind.silence⟩ := by
  constructor
  · unfold PoseAssetsAnimator.insert_silences
    cases h : props.pose_asset "sil" with
    | none => rw [h] at hsil; simp at hsil
    | some a =>
      simp only [hfp, if_true, PoseAssetsAnimator.start_silence_events]
      exact List.getLast?_concat _
  · unfold SpriteSheetAnimator.insert_silences
    simp only [hfs, if_true, SpriteSheetAnimator.start_silence_events]
    exact List.getLast?_concat _

/-- Witness for C7_first_word_silence: first word starting at frame 10,
timeline start 0; pose backend (close_motion_duration 6) lands at 7, sprite
backend (in_between_frame_threshold 1) lands at 9. -/
theorem C7_first_word_silence_witness :
    (PoseAssetsAnimator.insert_silences propsAASil poseStateFirstWord vdSingleAA).2.getLast?
      = some ⟨7, "sil", EvKind.silence⟩ ∧
    (SpriteSheetAnimator.insert_silences spritePropsConst spriteStateFirstWord
        vdSingleAA).2.getLast?
      = some ⟨9, "sil", EvKind.silence⟩ := by
  have h := C7_first_word_silence propsAASil spritePropsConst poseStateFirstWord
    spriteStateFirstWord vdSingleAA vdSingleAA rfl rfl rfl
  constructor
  · rw [h.1]
    norm_num [poseStateFirstWord, PoseAssetsAnimator.setup_state, pyTrunc]
  · rw [h.2]
    norm_num [spriteStateFirstWord, spriteStateLastWord, spriteStatePrevAA]

/-- Claim C7 (counterexample): for a first word at frame 10 with timeline
start 0 the claim predicts the silence event at
`max(0, 10 - max(1, 6 / 2)) = 7` (the spec's own scenario, close 6), but the
sprite-sheet backend emits its only silence event at frame 9. -/
theorem C7_sprite_start_frame_counterexample :
    (SpriteSheetAnimator.insert_silences spritePropsConst spriteStateFirstWord vdSingleAA).2
      = [⟨9, "sil", EvKind.silence⟩] ∧
    pyTrunc (max (0 : ℚ) (10 - max 1 ((6 : ℚ) / 2))) = 7 ∧ (9 : ℤ) ≠ 7 := by
  refine ⟨?_, by norm_num [pyTrunc], by decide⟩
  norm_num +decide [SpriteSheetAnimator.insert_silences,
    SpriteSheetAnimator.end_silence_events, SpriteSheetAnimator.start_silence_events,
    spriteStateFirstWord, spriteStateLastWord, spriteStatePrevAA, spritePropsConst,
    vdSingleAA]

/-- Claim C8 (amended): within each word's emission, every silence event
precedes every viseme event, in both backends — insert_silences runs before
the viseme pass. -/
theorem C8_word_silences_precede_visemes :
    (∀ (cat : Catalog) (props : PoseAssetsAnimator.Props) (s : PoseAssetsAnimator.State)
        (vd : VisemeData) (wt : WordTiming) (delay : ℤ) (last : Bool) (idx : Nat),
      silences_before_visemes
        (PoseAssetsAnimator.insert_keyframes cat props s vd wt delay last idx).2) ∧
    (∀ (sprops : SpriteSheetAnimator.Props) (s : SpriteSheetAnimator.State)
        (vd : VisemeData) (wt : WordTiming) (delay : ℤ) (last : Bool) (idx : Nat),
      silences_before_visemes
        (SpriteSheetAnimator.insert_keyframes sprops s vd wt delay last idx).2) := by
  constructor
  · intro cat props s vd wt delay last idx
    exact append_silences_before_visemes _ _
      (pose_insert_silences_kinds _ _ _)
      (fun e he => pose_visemes_loop_kinds cat props wt vd.visemes_parts vd.visemes _ _ e he)
  · intro sprops s vd wt delay last idx
    exact append_silences_before_visemes _ _
      (sprite_insert_silences_kinds _ _ _)
      (fun e he => sprite_visemes_loop_kinds sprops wt vd.visemes_parts vd.visemes _ _ e he)

/-- Claim C8 (counterexample): a one-word run emits the stream
(silence at 16, silence at 7, viseme at 10) — the word's silence events come
before its viseme event in the aggregated stream, not after it as claimed. -/
theorem C8_silences_emitted_first_counterexample :
    (PoseAssetsAnimator.run catFlat propsAASil 0 0 0 6 [(⟨10, 20⟩, vdSingleAA)]).2
      = [⟨16, "sil", EvKind.silence⟩, ⟨7, "sil", EvKind.silence⟩,
          ⟨10, "aa", EvKind.viseme⟩] ∧
    ¬ silences_after_visemes
        [⟨16, "sil", EvKind.silence⟩, ⟨7, "sil", EvKind.silence⟩,
          ⟨10, "aa", EvKind.viseme⟩] := by
  constructor
  · norm_num +decide [PoseAssetsAnimator.run, PoseAssetsAnimator.driver_loop,
      PoseAssetsAnimator.insert_keyframes, PoseAssetsAnimator.setup_state,
      PoseAssetsAnimator.insert_silences, PoseAssetsAnimator.end_silence_events,
      PoseAssetsAnimator.start_silence_events, PoseAssetsAnimator.get_corrected_end_frame,
      PoseAssetsAnimator.insert_on_visemes, PoseAssetsAnimator.visemes_loop,
      PoseAssetsAnimator.should_skip_keyframe,
      PoseAssetsAnimator.should_skip_due_to_priority_conflict,
      PoseAssetsAnimator.has_already_a_kframe, PoseAssetsAnimator.prev_viseme_known,
      PoseAssetsAnimator.is_redundant, PoseAssetsAnimator.is_prev_kframe_too_close,
      PoseAssetsAnimator.should_skip_due_to_timing, PoseAssetsAnimator.is_unskippable_viseme,
      catFlat, propsAASil, vdSingleAA, pyRound_zero, pyTrunc, pyLower]
  · intro h
    have h02 : (2 : ℕ) < 0 := h ⟨0, by decide⟩ ⟨2, by decide⟩ rfl rfl
    omega

/-- Claim C9 (amended): the core performs no validation of thresholds (there
is no ConfigError anywhere in the animators or the driver); a run whose
in-between threshold is negative proceeds through its word and emits its
keyframe event. -/
theorem C9_no_threshold_validation (cat : Catalog) (props : PoseAssetsAnimator.Props)
    (ts sil_thr ibt close : ℤ) (wt : WordTiming) (v : String)
    (hibt : ibt < 0) (hv : (props.pose_asset v).isSome = true)
    (hsil : props.pose_asset "sil" = none) :
    (PoseAssetsAnimator.run cat props ts sil_thr ibt close [(wt, ⟨[v], 1, 0⟩)]).2
      = [⟨wt.word_frame_start, v, EvKind.viseme⟩] := by
  obtain ⟨a, ha⟩ := Option.isSome_iff_exists.mp hv
  simp only [PoseAssetsAnimator.run, PoseAssetsAnimator.driver_loop,
    PoseAssetsAnimator.insert_keyframes, PoseAssetsAnimator.setup_state,
    PoseAssetsAnimator.insert_silences, hsil, PoseAssetsAnimator.insert_on_visemes,
    PoseAssetsAnimator.visemes_loop, PoseAssetsAnimator.should_skip_keyframe,
    PoseAssetsAnimator.should_skip_due_to_priority_conflict,
    PoseAssetsAnimator.prev_viseme_known, PoseAssetsAnimator.has_already_a_kframe,
    PoseAssetsAnimator.is_redundant, PoseAssetsAnimator.is_prev_kframe_too_close,
    PoseAssetsAnimator.should_skip_due_to_timing, ha]
  norm_num [pyRound_zero]

/-- Witness for C9_no_threshold_validation: a run with in-between threshold -1
over the single word "aa" starting at frame 3 emits the viseme event at 3. -/
theorem C9_no_threshold_validation_witness :
    ((-1 : ℤ) < 0) ∧
    (PoseAssetsAnimator.run catFlat propsAAOnly 0 0 (-1) 0 [(⟨3, 9⟩, ⟨["aa"], 1, 0⟩)]).2
      = [⟨3, "aa", EvKind.viseme⟩] :=
  ⟨by decide, C9_no_threshold_validation catFlat propsAAOnly 0 0 (-1) 0 ⟨3, 9⟩ "aa"
    (by decide) rfl rfl⟩

/-- Claim C9 (counterexample): a run configured with negative in-between
threshold -1 does not fail and emits a keyframe event for its word, contrary
to the claim that no keyframe event is emitted for such a run. -/
theorem C9_negative_threshold_emits_counterexample :
    ((-1 : ℤ) < 0) ∧
    (PoseAssetsAnimator.run catFlat propsAAOnly 0 0 (-1) 0 [(⟨10, 20⟩, vdSingleAA)]).2
      = [⟨10, "aa", EvKind.viseme⟩] := by
  refine ⟨by decide, ?_⟩
  norm_num +decide [PoseAssetsAnimator.run, PoseAssetsAnimator.driver_loop,
    PoseAssetsAnimator.insert_keyframes, PoseAssetsAnimator.setup_state,
    PoseAssetsAnimator.insert_silences, PoseAssetsAnimator.end_silence_events,
    PoseAssetsAnimator.start_silence_events, PoseAssetsAnimator.get_corrected_end_frame,
    PoseAssetsAnimator.insert_on_visemes, PoseAssetsAnimator.visemes_loop,
    PoseAssetsAnimator.should_skip_keyframe,
    PoseAssetsAnimator.should_skip_due_to_priority_conflict,
    PoseAssetsAnimator.has_already_a_kframe, PoseAssetsAnimator.prev_viseme_known,
    PoseAssetsAnimator.is_redundant, PoseAssetsAnimator.is_prev_kframe_too_close,
    PoseAssetsAnimator.should_skip_due_to_timing, PoseAssetsAnimator.is_unskippable_viseme,
    catFlat, propsAAOnly, vdSingleAA, pyRound_zero, pyTrunc, pyLower]

/-- Claim C10: the word-boundary silence insertion leaves the scheduler's
carried state untouched in both backends — previous_start and previous_viseme
after insert_silences are exactly what they were before, so subsequent
redundancy, spacing and priority decisions ignore silence events entirely. -/
theorem C10_silence_insertion_preserves_scheduler_state :
    (∀ (props : PoseAssetsAnimator.Props) (s : PoseAssetsAnimator.State) (vd : VisemeData),
      (PoseAssetsAnimator.insert_silences props s vd).1.previous_start = s.previous_start ∧
      (PoseAssetsAnimator.insert_silences props s vd).1.previous_viseme = s.previous_viseme) ∧
    (∀ (sprops : SpriteSheetAnimator.Props) (s : SpriteSheetAnimator.State) (vd : VisemeData),
      (SpriteSheetAnimator.insert_silences sprops s vd).1.previous_start = s.previous_start ∧
      (SpriteSheetAnimator.insert_silences sprops s vd).1.previous_viseme
        = s.previous_viseme) := by
  constructor
  · intro props s vd
    unfold PoseAssetsAnimator.insert_silences
    cases props.pose_asset "sil" <;> simp
  · intro sprops s vd
    exact ⟨rfl, rfl⟩
